import Mathlib

/-
Shallow embedding of the SHL assessment recommendation pipeline
(repository Vitesh21/SHL, file src/app.py).

The pipeline is modelled faithfully from the source:
 * `Assessment` mirrors the pydantic response model (app.py lines 34-40).
 * `scrape_shl_catalog` mirrors the retrying catalog fetch (lines 46-158);
   the HTTP fetch and the BeautifulSoup queries are external effects, so each
   attempt's outcome (timeout / network error / fetched page) is an input, and
   a `Page` carries the section lists that the three `find_all` selector
   patterns and the fallback query would return.
 * `recommendFull` mirrors the POST /recommend handler (lines 176-245); the
   embedding model and `cosine_similarity` are opaque numerics, so the
   similarity scores arrive as a list of rationals (floats idealised as ℚ).
 * `pySortDesc` models `list.sort(reverse=True)` on (score, Assessment)
   tuples, including Python's tuple comparison semantics: on equal scores the
   comparison falls through to the `Assessment` operands, which support `==`
   but not `<`, so comparing two distinct records raises `TypeError`
   (modelled as `Except.error`).
-/

/-- Decidable equality for `Except`, so concrete pipeline outcomes can be
checked by `decide`. -/
instance {e a : Type} [DecidableEq e] [DecidableEq a] : DecidableEq (Except e a) := fun x y =>
  match x, y with
  | .ok v, .ok w =>
    if h : v = w then .isTrue (by rw [h]) else .isFalse (fun hh => by cases hh; exact h rfl)
  | .error v, .error w =>
    if h : v = w then .isTrue (by rw [h]) else .isFalse (fun hh => by cases hh; exact h rfl)
  | .ok _, .error _ => .isFalse (fun hh => by cases hh)
  | .error _, .ok _ => .isFalse (fun hh => by cases hh)

namespace SHL

/-- The source's relevance threshold `0.1` (app.py line 210) as the exact
rational 1/10, written as a reduced fraction so that the kernel can
evaluate comparisons against it (see `relevanceFloor_eq`). -/
def relevanceFloor : ℚ := ⟨1, 10, by norm_num, Nat.coprime_one_left 10⟩

/-- The relevance floor is the rational number 1/10. -/
theorem relevanceFloor_eq : relevanceFloor = 1/10 := by
  unfold relevanceFloor
  rw [Rat.mk'_eq_divInt]
  norm_num [Rat.divInt_eq_div]

/-- The pydantic `Assessment` response model (app.py lines 34-40). -/
structure Assessment where
  name : String
  url : String
  remote_testing : Bool
  adaptive_support : Bool
  duration : String
  test_type : String
deriving DecidableEq, Repr

/-- Characters stripped by Python `str.strip()` / matched by regex `\s`. -/
def pyIsSpace (c : Char) : Bool :=
  c = ' ' || c = '\t' || c = '\n' || c = '\r' || c = '\x0b' || c = '\x0c'

/-- Python `s.startswith(pre)`, on the underlying character lists. -/
def pyStartsWith (pre s : String) : Bool :=
  pre.data.isPrefixOf s.data

/-- Python `s.lower()`, as a character list. -/
def lowerChars (s : String) : List Char :=
  s.data.map Char.toLower

/-- Python `s.strip()`: drop leading and trailing whitespace. -/
def pyStrip (s : String) : String :=
  String.mk (((s.data.dropWhile pyIsSpace).reverse.dropWhile pyIsSpace).reverse)

/-- First maximal run of digits in a character list (`re.search(r'\d+', s)`). -/
def findDigitRun : List Char → Option (List Char)
  | [] => none
  | c :: rest =>
    if c.isDigit then some (c :: rest.takeWhile Char.isDigit)
    else findDigitRun rest

/-- Value of a digit string, as Python `int()` of the matched group. -/
def digitsVal (l : List Char) : Nat :=
  l.foldl (fun n c => 10 * n + (c.toNat - 48)) 0

/-- `int(re.search(r'\d+', duration).group())` when a digit run exists
(app.py lines 215-217). -/
def durationValue (s : String) : Option Nat :=
  (findDigitRun s.data).map digitsVal

/-- Truthiness of the optional `max_duration` field: Python `if
request.max_duration:` is false for both `None` and `0` (app.py line 213). -/
def mdTruthy : Option Int → Bool
  | none => false
  | some v => v != 0

/-- The integer carried by a truthy `max_duration` (used only when truthy). -/
def mdVal : Option Int → Int
  | none => 0
  | some v => v

/-- One ranked candidate: a (similarity score, assessment) pair as built by
`zip(similarities, assessments)` (app.py line 203). -/
abbrev RankedPair := ℚ × Assessment

/-- Python tuple comparison `y < x` on `(score, Assessment)` pairs: compares
the scores first; on equal scores it falls through to the `Assessment`
operands, where `==` is field equality (pydantic) but `<` is unsupported, so
distinct records raise `TypeError` (modelled as `Except.error ()`). -/
def pyLt (y x : RankedPair) : Except Unit Bool :=
  if y.1 = x.1 then
    (if y.2 = x.2 then .ok false else .error ())
  else .ok (decide (y.1 < x.1))

/-- Insert `x` into an already descending-sorted list, placing it before the
first element `y` with `y < x`; comparisons may raise. -/
def insertDesc (x : RankedPair) : List RankedPair → Except Unit (List RankedPair)
  | [] => .ok [x]
  | y :: ys =>
    match pyLt y x with
    | .error e => .error e
    | .ok true => .ok (x :: y :: ys)
    | .ok false =>
      match insertDesc x ys with
      | .error e => .error e
      | .ok r => .ok (y :: r)

/-- `ranked_assessments.sort(reverse=True)` (app.py line 204): a stable
descending comparison sort using Python tuple comparison; it raises exactly
when a comparison meets two pairs with equal score and distinct records. -/
def pySortDesc : List RankedPair → Except Unit (List RankedPair)
  | [] => .ok []
  | x :: xs =>
    match pySortDesc xs with
    | .error e => .error e
    | .ok r => insertDesc x r

/-- The duration clause of the filter loop (app.py lines 213-222): with a
truthy `max_duration`, keep a candidate iff its duration's leading integer is
absent or at most the bound; otherwise keep everything. -/
def durationKeep (md : Option Int) (a : Assessment) : Bool :=
  if mdTruthy md then
    match durationValue a.duration with
    | some d => decide ((d : Int) ≤ mdVal md)
    | none => true
  else true

/-- The filter loop over the sorted candidates (app.py lines 207-224):
skip scores below 0.1, then apply the duration clause, appending in order. -/
def filterCandidates (md : Option Int) : List RankedPair → List Assessment
  | [] => []
  | (sim, a) :: rest =>
    if sim < relevanceFloor then filterCandidates md rest
    else
      if mdTruthy md then
        match durationValue a.duration with
        | some d =>
          if (d : Int) ≤ mdVal md then a :: filterCandidates md rest
          else filterCandidates md rest
        | none => a :: filterCandidates md rest
      else a :: filterCandidates md rest

/-- Survival test of one ranked pair in the filter loop: relevance floor
first, then the duration clause. -/
def surviveB (md : Option Int) (p : RankedPair) : Bool :=
  !(decide (p.1 < relevanceFloor)) && durationKeep md p.2

/-- The filter loop restricted to pairs (keeps the scores alongside). -/
def pairFilter (md : Option Int) (l : List RankedPair) : List RankedPair :=
  l.filter (surviveB md)

/-- Python slice `l[:n]` with an optional bound (`max_results` may be null,
in which case the slice keeps everything; negative bounds drop from the
end). -/
def pySlice (l : List Assessment) : Option Int → List Assessment
  | none => l
  | some n => if 0 ≤ n then l.take n.toNat else l.take (l.length - n.natAbs)

/-- Failure taxonomy of the page extraction (`ValueError`s in app.py
lines 83 and 133). -/
inductive ExtractErr where
  | noSections
  | noValid
deriving DecidableEq, Repr

/-- Failure taxonomy of `scrape_shl_catalog` (app.py lines 137-158). -/
inductive ScrapeErr where
  | timeoutUnavailable
  | netUnavailable
  | extraction (e : ExtractErr)
deriving DecidableEq, Repr

/-- HTTP status carried by each scrape failure (app.py lines 139-153). -/
def scrapeStatus : ScrapeErr → Nat
  | .timeoutUnavailable => 503
  | .netUnavailable => 503
  | .extraction _ => 500

/-- Failure taxonomy of the /recommend handler (app.py lines 176-245). -/
inductive RecErr where
  | validation
  | scrape (e : ScrapeErr)
  | emptyCatalog
  | sortTypeError
  | notFoundDuration (m : Int)
  | notFoundNoRelevant
deriving DecidableEq, Repr

/-- HTTP status carried by each handler failure. -/
def recStatus : RecErr → Nat
  | .validation => 400
  | .scrape e => scrapeStatus e
  | .emptyCatalog => 500
  | .sortTypeError => 500
  | .notFoundDuration _ => 404
  | .notFoundNoRelevant => 404

/-- Empty-result handling and truncation (app.py lines 226-240): a 404 whose
message names the duration criteria exactly when `max_duration` is truthy,
else the generic no-relevant-assessments message; otherwise slice to
`max_results`. -/
def assembleResult (md : Option Int) (k : Option Int)
    (filtered : List Assessment) : Except RecErr (List Assessment) :=
  if filtered = [] then
    .error (if mdTruthy md then .notFoundDuration (mdVal md) else .notFoundNoRelevant)
  else .ok (pySlice filtered k)

/-- The POST /recommend handler (app.py lines 176-245), with the catalog
fetch outcome and the cosine-similarity scores supplied as inputs (the
network and the embedding model are external effects). -/
def recommendFull (text : String) (scrapeRes : Except ScrapeErr (List Assessment))
    (sims : List ℚ) (k : Option Int) (md : Option Int) :
    Except RecErr (List Assessment) :=
  if pyStrip text = "" then .error .validation
  else
    match scrapeRes with
    | .error e => .error (.scrape e)
    | .ok assessments =>
      if assessments = [] then .error .emptyCatalog
      else
        match pySortDesc (sims.zip assessments) with
        | .error _ => .error .sortTypeError
        | .ok ranked => assembleResult md k (filterCandidates md ranked)

/-! ## Catalog extractor (app.py lines 46-158) -/

/-- Catalog origin (app.py line 47). -/
def baseUrl : String := "https://www.shl.com"

/-- One candidate section of the catalog page, reduced to the pieces the
extractor reads: the first heading-like element's text, the first anchor's
`href` (absent when there is no anchor or no `href` attribute), and the
first paragraph-like element's text (app.py lines 85-104). -/
structure Section where
  heading : Option String
  href : Option String
  para : Option String
deriving DecidableEq, Repr

/-- A fetched catalog page, abstracted to what the BeautifulSoup queries
return: the section lists each of the three selector patterns would yield
(app.py lines 65-75) and the more general fallback query's result
(line 79). -/
structure Page where
  patternResults : List (List Section)
  fallback : List Section
deriving Repr

/-- First non-empty pattern result (the loop with `break`, lines 71-75). -/
def firstNonempty : List (List Section) → Option (List Section)
  | [] => none
  | l :: ls => if l = [] then firstNonempty ls else some l

/-- Section discovery cascade (app.py lines 64-83): the first selector
pattern with matches wins, else the fallback, else no sections. -/
def cascadeSections (p : Page) : Option (List Section) :=
  match firstNonempty p.patternResults with
  | some s => some s
  | none => if p.fallback = [] then none else some p.fallback

/-- Name extraction (lines 87-88): trimmed heading text, else empty. -/
def extractName (s : Section) : String :=
  match s.heading with
  | some t => pyStrip t
  | none => ""

/-- URL resolution (lines 93-100). -/
def resolveUrl (href : String) : String :=
  if pyStartsWith "/" href then baseUrl ++ href
  else if pyStartsWith "http" href then href
  else baseUrl ++ "/" ++ href

/-- URL extraction (lines 91-100): resolved anchor target, else empty. -/
def extractUrl (s : Section) : String :=
  match s.href with
  | some h => resolveUrl h
  | none => ""

/-- Description extraction (lines 103-104): trimmed paragraph, else empty. -/
def extractDesc (s : Section) : String :=
  match s.para with
  | some t => pyStrip t
  | none => ""

/-- Does `needle` occur as a contiguous substring of `hay` (Python `in`)? -/
def containsSub (needle hay : List Char) : Bool :=
  hay.tails.any (fun t => needle.isPrefixOf t)

/-- Length matched by the regex alternation `(?:minutes?|mins?)` at the
start of `cs`, case-insensitively. -/
def matchMinUnit (cs : List Char) : Option Nat :=
  let low := cs.map Char.toLower
  if "minutes".data.isPrefixOf low then some 7
  else if "minute".data.isPrefixOf low then some 6
  else if "mins".data.isPrefixOf low then some 4
  else if "min".data.isPrefixOf low then some 3
  else none

/-- Match of `\d+\s*(?:minutes?|mins?)` anchored at the start of `cs`,
returning the matched characters (original case). A shorter digit or space
prefix can never rescue a failed unit match, so the greedy runs suffice. -/
def matchDurationAt (cs : List Char) : Option (List Char) :=
  let ds := cs.takeWhile Char.isDigit
  if ds = [] then none
  else
    let rest1 := cs.drop ds.length
    let sp := rest1.takeWhile pyIsSpace
    let rest2 := rest1.drop sp.length
    match matchMinUnit rest2 with
    | some n => some (ds ++ sp ++ rest2.take n)
    | none => none

/-- `re.search` of the duration pattern: first position with a match. -/
def searchDuration : List Char → Option (List Char)
  | [] => none
  | c :: rest =>
    match matchDurationAt (c :: rest) with
    | some m => some m
    | none => searchDuration rest

/-- Duration field (app.py lines 107-108): the matched text, else the
literal "Not specified". -/
def durationText (desc : String) : String :=
  match searchDuration desc.data with
  | some m => String.mk m
  | none => "Not specified"

/-- `keyword in description.lower() or keyword in name.lower()`. -/
def keywordHit (kw : String) (name desc : String) : Bool :=
  containsSub kw.data (lowerChars desc) || containsSub kw.data (lowerChars name)

/-- Test-type detection (app.py lines 111-120): first matching keyword
category in fixed priority order, else General. -/
def testTypeOf (name desc : String) : String :=
  if ["cognitive", "ability", "aptitude"].any (fun k => keywordHit k name desc) then
    "Cognitive"
  else if ["personality", "behavior", "style"].any (fun k => keywordHit k name desc) then
    "Personality"
  else if ["skill", "proficiency", "knowledge"].any (fun k => keywordHit k name desc) then
    "Skills"
  else "General"

/-- Record built from one section (app.py lines 85-130), with the fixed
`remote_testing`/`adaptive_support` placeholders of lines 126-127. -/
def mkAssessment (s : Section) : Assessment :=
  let name := extractName s
  let desc := extractDesc s
  { name := name
    url := extractUrl s
    remote_testing := true
    adaptive_support := false
    duration := durationText desc
    test_type := testTypeOf name desc }

/-- The records kept from a section list: one record per section, retained
only when both name and url are non-empty (`if name and url`, line 122). -/
def keptRecords (sections : List Section) : List Assessment :=
  (sections.map mkAssessment).filter (fun a => (a.name != "") && (a.url != ""))

/-- Parse one fetched page into records (app.py lines 60-135): run the
cascade, build a record per section, keep only records with non-empty name
and url (line 122), and fail if nothing survives (line 133). -/
def extractFromPage (p : Page) : Except ExtractErr (List Assessment) :=
  match cascadeSections p with
  | none => .error .noSections
  | some sections =>
    if keptRecords sections = [] then .error .noValid
    else .ok (keptRecords sections)

/-- Outcome of one fetch attempt: the `session.get` call either times out,
fails at the network level (`requests.RequestException`), or yields a page. -/
inductive AttemptOutcome where
  | timeout
  | netError
  | page (p : Page)

/-- Is the outcome one of the two retriable failure kinds? -/
def retriableB : AttemptOutcome → Bool
  | .timeout => true
  | .netError => true
  | .page _ => false

/-- One iteration of the retry loop (app.py lines 55-158): a page is parsed
at once — a `ValueError` there escapes as a 500 without further retries —
while a timeout or network error re-raises as a 503 only on the last
attempt (`attempt == max_retries - 1`) and otherwise continues the loop
(`.ok none`). -/
def attemptResult (o : AttemptOutcome) (isLast : Bool) :
    Except ScrapeErr (Option (List Assessment)) :=
  match o with
  | .page p =>
    match extractFromPage p with
    | .error e => .error (.extraction e)
    | .ok rs => .ok (some rs)
  | .timeout => if isLast then .error .timeoutUnavailable else .ok none
  | .netError => if isLast then .error .netUnavailable else .ok none

/-- `scrape_shl_catalog` (app.py lines 46-158): the `for attempt in
range(3)` loop unrolled, with `max_retries - 1 = 2` as the last attempt.
The final `.ok []` arm is unreachable (a last attempt never asks to retry);
it stands for Python falling off the loop and returning `None`, which the
caller's `if not assessments` maps to the same empty-catalog 500 as `[]`. -/
def scrape_shl_catalog (f : Nat → AttemptOutcome) : Except ScrapeErr (List Assessment) :=
  match attemptResult (f 0) false with
  | .error e => .error e
  | .ok (some rs) => .ok rs
  | .ok none =>
    match attemptResult (f 1) false with
    | .error e => .error e
    | .ok (some rs) => .ok rs
    | .ok none =>
      match attemptResult (f 2) true with
      | .error e => .error e
      | .ok (some rs) => .ok rs
      | .ok none => .ok []

/-! ## Concrete data used by the witnesses -/

/-- A record with a parseable 40-minute duration. -/
def sampleA : Assessment :=
  { name := "Java Programming Skills Test"
    url := "https://www.shl.com/java"
    remote_testing := true
    adaptive_support := false
    duration := "40 minutes"
    test_type := "Skills" }

/-- A record with a parseable 30-minute duration. -/
def sampleB : Assessment :=
  { name := "Personality Style Inventory"
    url := "https://www.shl.com/psi"
    remote_testing := true
    adaptive_support := false
    duration := "30 minutes"
    test_type := "Personality" }

/-- A record whose duration field has no digits. -/
def sampleC : Assessment :=
  { name := "General Aptitude Screen"
    url := "https://www.shl.com/gas"
    remote_testing := true
    adaptive_support := false
    duration := "Not specified"
    test_type := "Cognitive" }

/-- The similarity score 1/2, as a reduced fraction for kernel evaluation. -/
def scoreHalf : ℚ := ⟨1, 2, by norm_num, Nat.coprime_one_left 2⟩

/-- The similarity score 1/100 (below the relevance floor), reduced form. -/
def scoreHundredth : ℚ := ⟨1, 100, by norm_num, Nat.coprime_one_left 100⟩

/-- Tie-score record distinct from `tieB` only in its name. -/
def tieA : Assessment :=
  { name := "Alpha", url := "https://www.shl.com/a", remote_testing := true
    adaptive_support := false, duration := "10 minutes", test_type := "General" }

/-- Tie-score record distinct from `tieA` only in its name. -/
def tieB : Assessment :=
  { name := "Beta", url := "https://www.shl.com/a", remote_testing := true
    adaptive_support := false, duration := "10 minutes", test_type := "General" }


/-! ## Lemmas about the ranker and the filter loop -/

theorem pyLt_ok_true {y x : RankedPair} (h : pyLt y x = .ok true) : y.1 < x.1 := by
  unfold pyLt at h
  by_cases h1 : y.1 = x.1
  · rw [if_pos h1] at h
    split at h <;> simp_all
  · rw [if_neg h1] at h
    simp at h
    exact h

theorem pyLt_ok_false {y x : RankedPair} (h : pyLt y x = .ok false) : x.1 ≤ y.1 := by
  unfold pyLt at h
  by_cases h1 : y.1 = x.1
  · exact le_of_eq h1.symm
  · rw [if_neg h1] at h
    simp at h
    exact h

theorem insertDesc_mem {x : RankedPair} :
    ∀ {l r : List RankedPair}, insertDesc x l = .ok r → ∀ z ∈ r, z = x ∨ z ∈ l := by
  intro l
  induction l with
  | nil =>
    intro r h z hz
    cases h
    simp at hz
    exact Or.inl hz
  | cons y ys ih =>
    intro r h z hz
    simp only [insertDesc] at h
    cases hp : pyLt y x with
    | error e => rw [hp] at h; cases h
    | ok b =>
      rw [hp] at h
      cases b with
      | true =>
        cases h
        rcases List.mem_cons.mp hz with hz1 | hz2
        · exact Or.inl hz1
        · exact Or.inr hz2
      | false =>
        cases hi : insertDesc x ys with
        | error e => rw [hi] at h; cases h
        | ok r2 =>
          rw [hi] at h
          cases h
          rcases List.mem_cons.mp hz with hz1 | hz2
          · exact Or.inr (List.mem_cons.mpr (Or.inl hz1))
          · rcases ih hi z hz2 with h2 | h2
            · exact Or.inl h2
            · exact Or.inr (List.mem_cons.mpr (Or.inr h2))

theorem insertDesc_pairwise {x : RankedPair} :
    ∀ {l r : List RankedPair}, l.Pairwise (fun p q => q.1 ≤ p.1) →
      insertDesc x l = .ok r → r.Pairwise (fun p q => q.1 ≤ p.1) := by
  intro l
  induction l with
  | nil =>
    intro r _ h
    cases h
    simp
  | cons y ys ih =>
    intro r hp h
    simp only [insertDesc] at h
    rcases List.pairwise_cons.mp hp with ⟨hy, hys⟩
    cases hlt : pyLt y x with
    | error e => rw [hlt] at h; cases h
    | ok b =>
      rw [hlt] at h
      cases b with
      | true =>
        cases h
        have hyx : y.1 < x.1 := pyLt_ok_true hlt
        refine List.pairwise_cons.mpr ⟨?_, hp⟩
        intro z hz
        rcases List.mem_cons.mp hz with hz1 | hz2
        · exact le_of_lt (hz1 ▸ hyx)
        · exact le_trans (hy z hz2) (le_of_lt hyx)
      | false =>
        cases hi : insertDesc x ys with
        | error e => rw [hi] at h; cases h
        | ok r2 =>
          rw [hi] at h
          cases h
          refine List.pairwise_cons.mpr ⟨?_, ih hys hi⟩
          intro z hz
          rcases insertDesc_mem hi z hz with h2 | h2
          · exact h2 ▸ pyLt_ok_false hlt
          · exact hy z h2

theorem pySortDesc_pairwise :
    ∀ {l r : List RankedPair}, pySortDesc l = .ok r →
      r.Pairwise (fun p q => q.1 ≤ p.1) := by
  intro l
  induction l with
  | nil => intro r h; cases h; simp
  | cons x xs ih =>
    intro r h
    simp only [pySortDesc] at h
    cases hs : pySortDesc xs with
    | error e => rw [hs] at h; cases h
    | ok r2 =>
      rw [hs] at h
      exact insertDesc_pairwise (ih hs) h

theorem filterCandidates_eq (md : Option Int) :
    ∀ l : List RankedPair, filterCandidates md l = (pairFilter md l).map Prod.snd := by
  intro l
  induction l with
  | nil => rfl
  | cons p rest ih =>
    obtain ⟨sim, a⟩ := p
    by_cases hs : sim < relevanceFloor
    · simp [filterCandidates, hs, pairFilter, List.filter_cons, surviveB, ih]
    · cases hm : mdTruthy md with
      | false =>
        simp [filterCandidates, hs, hm, pairFilter, List.filter_cons, surviveB,
          durationKeep, ih]
      | true =>
        cases hd : durationValue a.duration with
        | some d =>
          by_cases hle : (d : Int) ≤ mdVal md
          · simp [filterCandidates, hs, hm, hd, hle, pairFilter, List.filter_cons,
              surviveB, durationKeep, ih]
          · simp [filterCandidates, hs, hm, hd, hle, pairFilter, List.filter_cons,
              surviveB, durationKeep, ih]
        | none =>
          simp [filterCandidates, hs, hm, hd, pairFilter, List.filter_cons,
            surviveB, durationKeep, ih]

theorem mem_filterCandidates {md : Option Int} {l : List RankedPair} {a : Assessment} :
    a ∈ filterCandidates md l ↔
      ∃ s : ℚ, (s, a) ∈ l ∧ ¬ s < relevanceFloor ∧ durationKeep md a = true := by
  rw [filterCandidates_eq]
  simp only [pairFilter, List.mem_map, List.mem_filter]
  constructor
  · rintro ⟨⟨s, b⟩, ⟨hmem, hsurv⟩, rfl⟩
    simp only [surviveB, Bool.and_eq_true, Bool.not_eq_true', decide_eq_false_iff_not] at hsurv
    exact ⟨s, hmem, hsurv.1, hsurv.2⟩
  · rintro ⟨s, hmem, hge, hkeep⟩
    refine ⟨(s, a), ⟨hmem, ?_⟩, rfl⟩
    simp [surviveB, hge, hkeep]

theorem filterCandidates_zero :
    ∀ l : List RankedPair, filterCandidates (some 0) l = filterCandidates none l := by
  intro l
  rw [filterCandidates_eq, filterCandidates_eq]
  unfold pairFilter
  exact congrArg (List.map Prod.snd) (List.filter_congr (fun p _ => rfl))

/-! ## Claims C1-C5 -/
/-- Claim C1: for a request with positive `maxResults`, whenever the pipeline
returns a response, the response is exactly the first `min(maxResults,
|filtered set|)` entries of the filtered candidate list, which is the
second-component projection of a pair list whose similarity scores are
non-increasing; the truncation takes the first entries and does not reorder,
and at least one recommendation is present. -/
theorem C1_response_shape (text : String) (scrapeRes : Except ScrapeErr (List Assessment))
    (sims : List ℚ) (n : Int) (md : Option Int) (res : List Assessment)
    (hn : 0 < n)
    (h : recommendFull text scrapeRes sims (some n) md = .ok res) :
    ∃ assessments ranked,
      scrapeRes = .ok assessments ∧
      pySortDesc (sims.zip assessments) = .ok ranked ∧
      res = (filterCandidates md ranked).take n.toNat ∧
      res.length = min n.toNat (filterCandidates md ranked).length ∧
      filterCandidates md ranked = (pairFilter md ranked).map Prod.snd ∧
      List.Pairwise (fun a b : ℚ => b ≤ a) ((pairFilter md ranked).map Prod.fst) ∧
      res ≠ [] := by
  unfold recommendFull at h
  split at h
  · cases h
  · split at h
    · cases h
    · next junkSc assessments =>
      split at h
      · cases h
      · split at h
        · cases h
        · next ranked hsort =>
          unfold assembleResult at h
          split at h
          · cases h
          · next hne =>
            cases h
            have hp := pySortDesc_pairwise hsort
            have hfp : (pairFilter md ranked).Pairwise (fun p q : RankedPair => q.1 ≤ p.1) :=
              hp.sublist (List.filter_sublist _)
            refine ⟨assessments, ranked, rfl, hsort, ?_, ?_, filterCandidates_eq md ranked, ?_, ?_⟩
            · simp [pySlice, le_of_lt hn]
            · simp [pySlice, le_of_lt hn]
            · exact List.pairwise_map.mpr hfp
            · have hlen : 0 < (pySlice (filterCandidates md ranked) (some n)).length := by
                simp only [pySlice, if_pos (le_of_lt hn), List.length_take]
                exact lt_min_iff.mpr ⟨by omega, List.length_pos.mpr hne⟩
              exact List.ne_nil_of_length_pos hlen

/-- Witness for C1 at a concrete run returning one recommendation. -/
theorem C1_witness :
    (0 : Int) < 5 ∧
    ∃ assessments ranked,
      (Except.ok [sampleA] : Except ScrapeErr (List Assessment)) = .ok assessments ∧
      pySortDesc ([(1:ℚ)].zip assessments) = .ok ranked ∧
      [sampleA] = (filterCandidates none ranked).take (5:Int).toNat ∧
      [sampleA].length = min (5:Int).toNat (filterCandidates none ranked).length ∧
      filterCandidates none ranked = (pairFilter none ranked).map Prod.snd ∧
      List.Pairwise (fun a b : ℚ => b ≤ a) ((pairFilter none ranked).map Prod.fst) ∧
      [sampleA] ≠ [] :=
  ⟨by decide,
    C1_response_shape "q" (.ok [sampleA]) [(1:ℚ)] 5 none [sampleA] (by decide) (by decide)⟩

/-- Counterexample to claim C2 as stated: on two candidates with equal
similarity score and distinct records, the ranking raises (Python compares
the `Assessment` operands, which do not support `<`) instead of placing them
in the extractor's original order. -/
theorem C2_counterexample :
    pySortDesc [(scoreHalf, tieA), (scoreHalf, tieB)] = .error () := by decide

/-- Claim C2 amended: for a pair of candidates, equal scores with equal
record values keep the original order, equal scores with distinct records
make the ranking fail with a `TypeError`, and distinct scores are ordered by
descending score. -/
theorem C2_amended_tie_behavior (x y : RankedPair) :
    pySortDesc [x, y] =
      if y.1 = x.1 then (if y.2 = x.2 then .ok [x, y] else .error ())
      else if y.1 < x.1 then .ok [x, y]
      else .ok [y, x] := by
  have hstep : pySortDesc [x, y] = insertDesc x [y] := rfl
  rw [hstep]
  by_cases h1 : y.1 = x.1
  · by_cases h2 : y.2 = x.2
    · have hxy : y = x := Prod.ext_iff.mpr ⟨h1, h2⟩
      subst hxy
      simp [insertDesc, pyLt]
    · simp [insertDesc, pyLt, h1, h2]
  · by_cases h3 : y.1 < x.1
    · simp [insertDesc, pyLt, h1, h3]
    · simp [insertDesc, pyLt, h1, h3]

/-- Claim C3: the relevance floor is inclusive — a candidate whose every
score in the ranked list is strictly below 0.10 never appears in the
filtered set, while a candidate carrying score exactly 0.10 (and passing the
duration clause) does appear. -/
theorem C3_relevance_floor_inclusive (l : List RankedPair) (a : Assessment) (md : Option Int) :
    ((∀ s : ℚ, (s, a) ∈ l → s < relevanceFloor) → a ∉ filterCandidates md l) ∧
    (((relevanceFloor, a) ∈ l ∧ durationKeep md a = true) → a ∈ filterCandidates md l) := by
  constructor
  · intro hall hmem
    rcases mem_filterCandidates.mp hmem with ⟨s, hsl, hge, _⟩
    exact hge (hall s hsl)
  · rintro ⟨hmem, hkeep⟩
    exact mem_filterCandidates.mpr ⟨relevanceFloor, hmem, lt_irrefl _, hkeep⟩

/-- Witness for C3: a score of exactly 1/10 is kept. -/
theorem C3_witness :
    ((relevanceFloor, sampleA) ∈ [(relevanceFloor, sampleA)] ∧
      durationKeep none sampleA = true) ∧
    sampleA ∈ filterCandidates none [(relevanceFloor, sampleA)] :=
  ⟨⟨by simp, by decide⟩,
    (C3_relevance_floor_inclusive [(relevanceFloor, sampleA)] sampleA none).2
      ⟨by simp, by decide⟩⟩

/-- Claim C4: a threshold-passing candidate whose duration field contains no
parseable number is kept under every `maxDuration` constraint. -/
theorem C4_unparseable_never_excluded (l : List RankedPair) (s : ℚ) (a : Assessment)
    (md : Option Int) (hmem : (s, a) ∈ l) (hs : relevanceFloor ≤ s)
    (hd : durationValue a.duration = none) :
    a ∈ filterCandidates md l := by
  refine mem_filterCandidates.mpr ⟨s, hmem, not_lt.mpr hs, ?_⟩
  cases hmt : mdTruthy md <;> simp [durationKeep, hmt, hd]

/-- Witness for C4: the "Not specified" duration survives a 5-minute cap. -/
theorem C4_witness :
    ((scoreHalf, sampleC) ∈ [(scoreHalf, sampleC)] ∧ relevanceFloor ≤ scoreHalf ∧
      durationValue sampleC.duration = none) ∧
    sampleC ∈ filterCandidates (some 5) [(scoreHalf, sampleC)] :=
  ⟨⟨by simp, by decide, by decide⟩,
    C4_unparseable_never_excluded [(scoreHalf, sampleC)] scoreHalf sampleC (some 5)
      (by simp) (by decide) (by decide)⟩

/-- Claim C5: for a threshold-passing candidate whose duration parses to `d`
and a positive constraint `m`, membership in the filtered set is equivalent
to `d ≤ m`. -/
theorem C5_parseable_iff (l : List RankedPair) (s : ℚ) (a : Assessment) (d : ℕ) (m : Int)
    (hmem : (s, a) ∈ l) (hs : relevanceFloor ≤ s)
    (hd : durationValue a.duration = some d) (hm : 0 < m) :
    (a ∈ filterCandidates (some m) l ↔ (d : Int) ≤ m) := by
  have hmt : mdTruthy (some m) = true := by
    simp only [mdTruthy, bne_iff_ne, ne_eq]
    omega
  have hkeep : durationKeep (some m) a = decide ((d : Int) ≤ m) := by
    simp [durationKeep, hmt, hd, mdVal]
  constructor
  · intro hmemf
    rcases mem_filterCandidates.mp hmemf with ⟨s2, _, _, hk⟩
    rw [hkeep] at hk
    exact of_decide_eq_true hk
  · intro hle
    exact mem_filterCandidates.mpr
      ⟨s, hmem, not_lt.mpr hs, by rw [hkeep]; exact decide_eq_true hle⟩

/-- Witness for C5: a 40-minute assessment under a 60-minute cap. -/
theorem C5_witness :
    (((1:ℚ), sampleA) ∈ [((1:ℚ), sampleA)] ∧ relevanceFloor ≤ (1:ℚ) ∧
      durationValue sampleA.duration = some 40 ∧ (0 : Int) < 60) ∧
    (sampleA ∈ filterCandidates (some 60) [((1:ℚ), sampleA)] ↔ (40 : Int) ≤ 60) :=
  ⟨⟨by simp, by decide, by decide, by decide⟩,
    C5_parseable_iff [((1:ℚ), sampleA)] 1 sampleA 40 60 (by simp) (by decide)
      (by decide) (by decide)⟩

/-! ## Claims C6-C10 -/
/-- A retriable outcome (timeout or network error) on a non-final attempt
asks the loop to continue. -/
theorem retriable_attempt {o : AttemptOutcome} (h : retriableB o = true) :
    attemptResult o false = .ok none := by
  cases o <;> simp_all [retriableB, attemptResult]

/-- Counterexample to claim C6 as stated: with `max_duration = 50` supplied
but the sole candidate below the relevance floor, the duration constraint is
not what emptied the set (the set is empty even with no duration
constraint), yet the 404 carries the duration-criteria message. -/
theorem C6_counterexample :
    recommendFull "q" (.ok [sampleA]) [scoreHundredth] (some 10) (some 50) =
      .error (.notFoundDuration 50) ∧
    filterCandidates none [(scoreHundredth, sampleA)] = [] :=
  ⟨by decide, by decide⟩

/-- Claim C6 amended: when the pipeline succeeds but the filtered set is
empty, the request fails with the 404 duration-criteria message exactly when
a truthy (non-null, non-zero) `max_duration` was supplied — regardless of
which filter emptied the set — and with the no-relevant-assessments message
otherwise. -/
theorem C6_message_by_presence (text : String)
    (scrapeRes : Except ScrapeErr (List Assessment)) (sims : List ℚ)
    (k md : Option Int) (assessments : List Assessment) (ranked : List RankedPair)
    (ht : ¬ pyStrip text = "")
    (hs : scrapeRes = .ok assessments)
    (hne : assessments ≠ [])
    (hsort : pySortDesc (sims.zip assessments) = .ok ranked)
    (hempty : filterCandidates md ranked = []) :
    recommendFull text scrapeRes sims k md =
      .error (if mdTruthy md then .notFoundDuration (mdVal md)
              else .notFoundNoRelevant) := by
  subst hs
  unfold recommendFull assembleResult
  simp [ht, hne, hsort, hempty]

/-- Witness for the amended C6 at a concrete emptied request. -/
theorem C6_witness :
    (¬ pyStrip "q" = "" ∧ ([sampleA] : List Assessment) ≠ [] ∧
      pySortDesc ([scoreHundredth].zip [sampleA]) = .ok [(scoreHundredth, sampleA)] ∧
      filterCandidates (some 50) [(scoreHundredth, sampleA)] = []) ∧
    recommendFull "q" (.ok [sampleA]) [scoreHundredth] (some 10) (some 50) =
      .error (if mdTruthy (some 50) then .notFoundDuration (mdVal (some 50))
              else .notFoundNoRelevant) :=
  ⟨⟨by decide, by decide, by decide, by decide⟩,
    C6_message_by_presence "q" (.ok [sampleA]) [scoreHundredth] (some 10) (some 50)
      [sampleA] [(scoreHundredth, sampleA)] (by decide) rfl (by decide) (by decide)
      (by decide)⟩

/-- Claim C7: a timeout (resp. network error) on the final of 3 attempts
yields the 503 ServiceUnavailable failure of the matching kind, while a
parse/structure failure on any attempt is fatal immediately — regardless of
the outcomes of the remaining attempts — as the 500 extraction failure; the
two failure classes carry distinct status codes (500 vs 503). -/
theorem C7_retry_taxonomy (f : Nat → AttemptOutcome) :
    (retriableB (f 0) = true → retriableB (f 1) = true → f 2 = .timeout →
      scrape_shl_catalog f = .error .timeoutUnavailable) ∧
    (retriableB (f 0) = true → retriableB (f 1) = true → f 2 = .netError →
      scrape_shl_catalog f = .error .netUnavailable) ∧
    (∀ p e, f 0 = .page p → extractFromPage p = .error e →
      scrape_shl_catalog f = .error (.extraction e)) ∧
    (∀ p e, retriableB (f 0) = true → f 1 = .page p → extractFromPage p = .error e →
      scrape_shl_catalog f = .error (.extraction e)) ∧
    (∀ p e, retriableB (f 0) = true → retriableB (f 1) = true → f 2 = .page p →
      extractFromPage p = .error e → scrape_shl_catalog f = .error (.extraction e)) ∧
    (∀ e, scrapeStatus (.extraction e) = 500) ∧
    scrapeStatus .timeoutUnavailable = 503 ∧ scrapeStatus .netUnavailable = 503 := by
  refine ⟨?_, ?_, ?_, ?_, ?_, fun e => rfl, rfl, rfl⟩
  · intro h0 h1 h2
    unfold scrape_shl_catalog
    rw [retriable_attempt h0, retriable_attempt h1, h2]
    simp [attemptResult]
  · intro h0 h1 h2
    unfold scrape_shl_catalog
    rw [retriable_attempt h0, retriable_attempt h1, h2]
    simp [attemptResult]
  · intro p e h0 he
    unfold scrape_shl_catalog
    rw [h0]
    simp [attemptResult, he]
  · intro p e h0 h1 he
    unfold scrape_shl_catalog
    rw [retriable_attempt h0, h1]
    simp [attemptResult, he]
  · intro p e h0 h1 h2 he
    unfold scrape_shl_catalog
    rw [retriable_attempt h0, retriable_attempt h1, h2]
    simp [attemptResult, he]

/-- Witness for C7: all three attempts time out. -/
theorem C7_witness :
    retriableB ((fun _ => AttemptOutcome.timeout) 0) = true ∧
    scrape_shl_catalog (fun _ => AttemptOutcome.timeout) = .error .timeoutUnavailable :=
  ⟨rfl, (C7_retry_taxonomy (fun _ => AttemptOutcome.timeout)).1 rfl rfl rfl⟩

/-- Claim C8: a whitespace-only query text fails with the 400 validation
error for every catalog-fetch outcome whatsoever — in particular the result
does not depend on any network access. -/
theorem C8_empty_text_rejected (text : String)
    (scrapeRes : Except ScrapeErr (List Assessment)) (sims : List ℚ)
    (k md : Option Int) (h : pyStrip text = "") :
    recommendFull text scrapeRes sims k md = .error .validation ∧
    recStatus .validation = 400 := by
  constructor
  · unfold recommendFull
    rw [if_pos h]
  · rfl

/-- Witness for C8: a tab-and-spaces query, with a would-be failing fetch. -/
theorem C8_witness :
    pyStrip " \t " = "" ∧
    (recommendFull " \t " (.error .timeoutUnavailable) [] none none = .error .validation ∧
      recStatus .validation = 400) :=
  ⟨by decide,
    C8_empty_text_rejected " \t " (.error .timeoutUnavailable) [] none none (by decide)⟩

/-- Claim C9: whenever page extraction succeeds, the record list is
non-empty and every record has non-empty name and url (sections failing the
check were dropped); zero surviving sections can only produce the
ExtractionFailed error, never an empty success. -/
theorem C9_extracted_records_valid (p : Page) (rs : List Assessment)
    (h : extractFromPage p = .ok rs) :
    rs ≠ [] ∧ ∀ a ∈ rs, a.name ≠ "" ∧ a.url ≠ "" := by
  unfold extractFromPage at h
  split at h
  · cases h
  · split at h
    · cases h
    · rename_i hne
      injection h with h2
      subst h2
      refine ⟨hne, ?_⟩
      intro a ha
      unfold keptRecords at ha
      have hfa := List.of_mem_filter ha
      simp only [Bool.and_eq_true, bne_iff_ne, ne_eq] at hfa
      exact hfa

/-- A section yielding a valid record. -/
def goodSection : Section :=
  { heading := some " Java Test ", href := some "/java",
    para := some "A 40 minutes skills test" }

/-- A section with no extractable name or url; it is dropped. -/
def badSection : Section := { heading := none, href := none, para := none }

/-- A page whose first selector pattern finds one good and one bad
section. -/
def samplePage : Page := { patternResults := [[goodSection, badSection]], fallback := [] }

/-- Witness for C9 on a concrete page. -/
theorem C9_witness :
    extractFromPage samplePage = .ok [mkAssessment goodSection] ∧
    ([mkAssessment goodSection] ≠ [] ∧
      ∀ a ∈ [mkAssessment goodSection], a.name ≠ "" ∧ a.url ≠ "") :=
  ⟨by decide,
    C9_extracted_records_valid samplePage [mkAssessment goodSection] (by decide)⟩

/-- Result assembly treats `max_duration = 0` like no constraint (both are
falsy). -/
theorem assembleResult_zero (k : Option Int) (filtered : List Assessment) :
    assembleResult (some 0) k filtered = assembleResult none k filtered := rfl

/-- Claim C10: a request with `max_duration = 0` behaves exactly like a
request with no duration constraint — the whole handler result coincides,
so every threshold-passing candidate is kept and an empty result produces
the no-duration-constraint 404 message — because the constraint-present
test checks truthiness. -/
theorem C10_zero_duration_is_no_constraint (text : String)
    (scrapeRes : Except ScrapeErr (List Assessment)) (sims : List ℚ) (k : Option Int) :
    recommendFull text scrapeRes sims k (some 0) =
      recommendFull text scrapeRes sims k none := by
  cases scrapeRes with
  | error e => rfl
  | ok assessments =>
    by_cases ht : pyStrip text = ""
    · simp [recommendFull, ht]
    · by_cases hne : assessments = []
      · simp [recommendFull, ht, hne]
      · cases hsort : pySortDesc (sims.zip assessments) with
        | error e => simp [recommendFull, ht, hne, hsort]
        | ok ranked =>
          simp [recommendFull, ht, hne, hsort, filterCandidates_zero, assembleResult_zero]

end SHL
